import Mathlib

/-!
Formal model of the Shopify webhook notification relay (src/src/index.ts).

The two Express handlers (POST /webhooks/checkouts/update and
POST /webhooks/orders/create) are embedded as pure functions from an
environment, a delivery and a log state to a step result.  External
collaborators (the HMAC primitive, the phone parsing library, the
messaging provider and the float formatting of the order total) are
modelled as abstract capabilities carried in the environment or in the
delivery, exactly at the call sites where the source invokes them.
The Firestore collection whatsappLogs is modelled as a list of entries;
the cooldown query (where phone == p, orderBy timestamp desc, limit 1)
is modelled as the abstract findLatestByPhone operation of the store:
filter by phone and take the entry with the greatest timestamp, entries
without a timestamp ordering as oldest.
-/

namespace WtspHooks

/-- Customer object of a Shopify checkout payload (fields used by the code). -/
structure Customer where
  first_name : Option String
  last_name : Option String
  phone : Option String
deriving Repr, DecidableEq

/-- Shipping or billing address object (fields used by the code). -/
structure Address where
  first_name : Option String
  last_name : Option String
  phone : Option String
deriving Repr, DecidableEq

/-- The ShopifyCheckout payload shape, restricted to the fields the handlers read. -/
structure ShopifyCheckout where
  id : String
  customer : Option Customer
  shipping_address : Option Address
  billing_address : Option Address
  completed_at : Option String
  total_price : Option String
deriving Repr, DecidableEq

/-- JavaScript falsiness for an optional string: undefined and the empty string
are falsy, every other string is truthy. -/
def jsFalsyOptStr (o : Option String) : Bool := (o.getD "") == ""

/-- The nullish coalescing operator a ?? b of JavaScript on optional strings:
falls through only when a is null or undefined, never on the empty string. -/
def jsNullish (a b : Option String) : Option String :=
  match a with
  | none => b
  | some s => some s

/-- The trim() of JavaScript strings: removes whitespace from both ends.
Implemented by structural recursion over the character list so that it
evaluates inside the kernel. -/
def jsTrim (s : String) : String :=
  String.mk
    (((s.toList.dropWhile Char.isWhitespace).reverse.dropWhile
      Char.isWhitespace).reverse)

/-- Translation of getFullName (index.ts lines 126-142): the trimmed
concatenation of first and last name from customer, then shipping, then
billing, the first non-empty winning, with fallback "Unknown User". -/
def getFullName (checkout : ShopifyCheckout) : String :=
  let nameFromCustomer :=
    jsTrim (((checkout.customer.bind Customer.first_name).getD "") ++ " " ++
      ((checkout.customer.bind Customer.last_name).getD ""))
  let nameFromShipping :=
    jsTrim (((checkout.shipping_address.bind Address.first_name).getD "") ++ " " ++
      ((checkout.shipping_address.bind Address.last_name).getD ""))
  let nameFromBilling :=
    jsTrim (((checkout.billing_address.bind Address.first_name).getD "") ++ " " ++
      ((checkout.billing_address.bind Address.last_name).getD ""))
  if nameFromCustomer != "" then nameFromCustomer
  else if nameFromShipping != "" then nameFromShipping
  else if nameFromBilling != "" then nameFromBilling
  else "Unknown User"

/-- Translation of the rawPhone resolution (index.ts lines 193-196 and 342-345):
customer phone ?? shipping phone ?? billing phone, with the nullish semantics
of the source (an empty string does not fall through). -/
def rawRecipientPhone (checkout : ShopifyCheckout) : Option String :=
  jsNullish (checkout.customer.bind Customer.phone)
    (jsNullish (checkout.shipping_address.bind Address.phone)
      (checkout.billing_address.bind Address.phone))

/-- Result of parsePhoneNumberFromString, modelled abstractly: the library
either returns nothing or an object with a validity flag and the E.164 number. -/
structure ParsedPhone where
  valid : Bool
  number : String
deriving Repr, DecidableEq

/-- Outcome of the outbound axios send, modelled abstractly: success carries the
optional message id and message_status of the provider response, failure
carries the extracted error message. -/
inductive SendResult where
  | ok (messageId : Option String) (messageStatus : Option String)
  | err (errorMsg : String)
deriving Repr, DecidableEq

/-- Message id extracted from a send outcome on the success path. -/
def resultMessageId : SendResult → Option String
  | .ok mid _ => mid
  | .err _ => none

/-- Provider status extracted from a send outcome on the success path. -/
def resultMessageStatus : SendResult → Option String
  | .ok _ ms => ms
  | .err _ => none

/-- Error message extracted from a send outcome on the failure path. -/
def resultErrorMsg : SendResult → Option String
  | .ok _ _ => none
  | .err m => some m

/-- One document of the whatsappLogs collection, with exactly the fields the
two handlers write.  Every field the code may omit is optional; in particular
the success-path write sets no timestamp and no error, and the failure-path
write sets no messageId. -/
structure LogEntry where
  fullName : Option String
  phone : String
  messageId : Option String
  checkoutId : String
  status : Option String
  timestamp : Option Int
  error : Option String
deriving Repr, DecidableEq

/-- The outbound WhatsApp template message, restricted to the data the code
puts into messageData: recipient, template name, language, header image link,
body text parameters in order, and the optional copy-code button parameter. -/
structure MessageData where
  toNumber : String
  templateName : Option String
  languageCode : String
  headerImageLink : Option String
  bodyParams : List (Option String)
  couponParam : Option (Option String)
deriving Repr, DecidableEq

/-- Process environment and external capabilities: the configured secret and
template values, the HMAC-SHA256-base64 primitive, the phone parsing library
with default region IN already applied, the clock, and the formatting of
parseFloat(total_price ?? "0") into the message text. -/
structure Env where
  secret : String
  hmacFn : String → String → String
  parsePhone : String → Option ParsedPhone
  now : Int
  discountCode : Option String
  imageUrl : Option String
  abandonedTemplate : Option String
  orderTemplate : Option String
  formatAmount : String → String

/-- One inbound webhook delivery: the presented signature header, the raw body
bytes as a string, the parsed JSON payload, and the outcome the messaging
provider would give to the send performed for this delivery. -/
structure Delivery where
  hmacHeader : Option String
  rawBody : String
  payload : ShopifyCheckout
  sendResult : SendResult

/-- How a delivery ended, one constructor per exit point of a handler.  The two
cooldownFault constructors model the TypeError thrown at index.ts line 233:
with an empty query result docs[0] is undefined and .data() throws; with a
document lacking the timestamp field .toDate() throws on undefined. -/
inductive Outcome where
  | authRejected
  | alreadyCompleted
  | noPhone
  | parseReturnedNone
  | invalidPhone
  | alreadyProcessed
  | cooldownFaultEmpty
  | cooldownFaultNoTimestamp
  | cooldownBlocked
  | sent
  | sendFailed
deriving Repr, DecidableEq

/-- Observable result of one delivery: the HTTP status written to the response,
the outbound provider calls made, the log state after the delivery, and the
exit point taken. -/
structure StepResult where
  response : Nat
  sends : List MessageData
  log : List LogEntry
  outcome : Outcome
deriving Repr

/-- The dedup query (index.ts lines 215-218): all log entries whose checkoutId
field equals the given id. -/
def entriesByEventId (log : List LogEntry) (id : String) : List LogEntry :=
  log.filter (fun e => e.checkoutId == id)

/-- Number of log entries recorded under a given event id. -/
def countByEventId (log : List LogEntry) (id : String) : Nat :=
  (entriesByEventId log id).length

/-- The cooldown query (index.ts lines 226-231), as the findLatestByPhone
operation of the abstract store: entries with the given phone, most recent by
timestamp, at most one returned.  An entry without a timestamp orders as
oldest. -/
def latestByPhone (log : List LogEntry) (p : String) : Option LogEntry :=
  (log.filter (fun e => e.phone == p)).foldl
    (fun best e =>
      match best with
      | none => some e
      | some b => if e.timestamp.getD 0 > b.timestamp.getD 0 then some e else some b)
    none

/-- The messageData built by the checkouts/update handler (index.ts lines
240-276): header image, body parameters customerName and DISCOUNT_CODE, and
the COPY_CODE button carrying DISCOUNT_CODE, language en_US. -/
def checkoutMessageData (env : Env) (sanitizedPhone customerName : String) : MessageData :=
  { toNumber := sanitizedPhone
    templateName := env.abandonedTemplate
    languageCode := "en_US"
    headerImageLink := env.imageUrl
    bodyParams := [some customerName, env.discountCode]
    couponParam := some env.discountCode }

/-- The messageData built by the orders/create handler (index.ts lines
363-392): header image, body parameters customerName, the event id and the
formatted total amount, language en, no button component. -/
def orderMessageData (env : Env) (checkout : ShopifyCheckout)
    (sanitizedPhone customerName : String) : MessageData :=
  { toNumber := sanitizedPhone
    templateName := env.orderTemplate
    languageCode := "en"
    headerImageLink := env.imageUrl
    bodyParams := [some customerName, some checkout.id,
      some (env.formatAmount (checkout.total_price.getD "0"))]
    couponParam := none }

/-- The log document added on a successful send (index.ts lines 292-298 and
408-414): fullName, phone, messageId and status from the provider response,
the checkout id, and neither a timestamp nor an error field. -/
def sentLogEntry (fullName sanitizedPhone checkoutId : String)
    (sendResult : SendResult) : LogEntry :=
  { fullName := some fullName
    phone := sanitizedPhone
    messageId := resultMessageId sendResult
    checkoutId := checkoutId
    status := resultMessageStatus sendResult
    timestamp := none
    error := none }

/-- The log document added on a failed send (index.ts lines 302-309 and
419-426): fullName, phone, the checkout id, status "failed", the current
Timestamp and the extracted error message, and no messageId field. -/
def failedLogEntry (fullName sanitizedPhone checkoutId : String)
    (now : Int) (errorMsg : String) : LogEntry :=
  { fullName := some fullName
    phone := sanitizedPhone
    messageId := none
    checkoutId := checkoutId
    status := some "failed"
    timestamp := some now
    error := some errorMsg }

/-- Translation of the POST /webhooks/checkouts/update handler (index.ts
lines 162-316).  Control flow in source order: reject 403 on a falsy
signature header or empty secret, reject 403 on an HMAC mismatch, answer 200,
return on a truthy completed_at, resolve and check the raw phone, parse it,
return on an unparseable or invalid number, run the dedup query, run the
cooldown query and read docs[0].data().timestamp.toDate() before testing
emptiness (faulting when no document or no timestamp is there), suppress
inside the 24h window, otherwise send and append the matching log entry. -/
def checkoutsUpdateHandler (env : Env) (d : Delivery) (log : List LogEntry) :
    StepResult :=
  if jsFalsyOptStr d.hmacHeader || env.secret == "" then
    { response := 403, sends := [], log := log, outcome := .authRejected }
  else if env.hmacFn env.secret d.rawBody != d.hmacHeader.getD "" then
    { response := 403, sends := [], log := log, outcome := .authRejected }
  else
    let checkout := d.payload
    let checkoutId := checkout.id
    if !jsFalsyOptStr checkout.completed_at then
      { response := 200, sends := [], log := log, outcome := .alreadyCompleted }
    else
      let rawPhone := rawRecipientPhone checkout
      if jsFalsyOptStr rawPhone then
        { response := 200, sends := [], log := log, outcome := .noPhone }
      else
        let fullName := getFullName checkout
        match env.parsePhone (rawPhone.getD "") with
        | none =>
          { response := 200, sends := [], log := log, outcome := .parseReturnedNone }
        | some phoneNumber =>
          if !phoneNumber.valid then
            { response := 200, sends := [], log := log, outcome := .invalidPhone }
          else
            let sanitizedPhone := phoneNumber.number
            let customerName := (checkout.customer.bind Customer.first_name).getD "there"
            if !(entriesByEventId log checkoutId).isEmpty then
              { response := 200, sends := [], log := log, outcome := .alreadyProcessed }
            else
              match latestByPhone log sanitizedPhone with
              | none =>
                { response := 200, sends := [], log := log,
                  outcome := .cooldownFaultEmpty }
              | some doc =>
                match doc.timestamp with
                | none =>
                  { response := 200, sends := [], log := log,
                    outcome := .cooldownFaultNoTimestamp }
                | some hh =>
                  if env.now - hh < 24 * 60 * 60 * 1000 then
                    { response := 200, sends := [], log := log,
                      outcome := .cooldownBlocked }
                  else
                    let msg := checkoutMessageData env sanitizedPhone customerName
                    match d.sendResult with
                    | .ok _ _ =>
                      { response := 200, sends := [msg],
                        log := log ++ [sentLogEntry fullName sanitizedPhone
                          checkoutId d.sendResult],
                        outcome := .sent }
                    | .err errorMsg =>
                      { response := 200, sends := [msg],
                        log := log ++ [failedLogEntry fullName sanitizedPhone
                          checkoutId env.now errorMsg],
                        outcome := .sendFailed }

/-- Translation of the POST /webhooks/orders/create handler (index.ts lines
318-430).  Control flow in source order: the same signature gate, answer 200,
resolve and check the raw phone, parse it, return on an unparseable or
invalid number, then send unconditionally and append the matching log entry.
The handler reads neither completed_at nor the log: it has no completed
guard, no dedup query and no cooldown query. -/
def ordersCreateHandler (env : Env) (d : Delivery) (log : List LogEntry) :
    StepResult :=
  if jsFalsyOptStr d.hmacHeader || env.secret == "" then
    { response := 403, sends := [], log := log, outcome := .authRejected }
  else if env.hmacFn env.secret d.rawBody != d.hmacHeader.getD "" then
    { response := 403, sends := [], log := log, outcome := .authRejected }
  else
    let checkout := d.payload
    let fullName := getFullName checkout
    let rawPhone := rawRecipientPhone checkout
    if jsFalsyOptStr rawPhone then
      { response := 200, sends := [], log := log, outcome := .noPhone }
    else
      match env.parsePhone (rawPhone.getD "") with
      | none =>
        { response := 200, sends := [], log := log, outcome := .parseReturnedNone }
      | some phoneNumber =>
        if !phoneNumber.valid then
          { response := 200, sends := [], log := log, outcome := .invalidPhone }
        else
          let sanitizedPhone := phoneNumber.number
          let customerName := (checkout.customer.bind Customer.first_name).getD "there"
          let msg := orderMessageData env checkout sanitizedPhone customerName
          match d.sendResult with
          | .ok _ _ =>
            { response := 200, sends := [msg],
              log := log ++ [sentLogEntry fullName sanitizedPhone checkout.id
                d.sendResult],
              outcome := .sent }
          | .err errorMsg =>
            { response := 200, sends := [msg],
              log := log ++ [failedLogEntry fullName sanitizedPhone checkout.id
                env.now errorMsg],
              outcome := .sendFailed }

/-! Concrete fixtures used by witnesses and counterexamples.  The external
capabilities get simple computable instantiations: an injective tagging
function for the HMAC primitive and a finite table for the phone library. -/

/-- A concrete environment for evaluation: the clock stands at 200000000 ms,
the phone library accepts +919876543210 as valid and 12345 as structurally
invalid and returns nothing otherwise. -/
def sampleEnv : Env :=
  { secret := "shs"
    hmacFn := fun s b => "mac:" ++ s ++ ":" ++ b
    parsePhone := fun r =>
      if r == "+919876543210" then some { valid := true, number := "+919876543210" }
      else if r == "12345" then some { valid := false, number := "12345" }
      else none
    now := 200000000
    discountCode := some "SAVE10"
    imageUrl := some "http://img"
    abandonedTemplate := some "abd_chk"
    orderTemplate := some "ord_crt"
    formatAmount := fun s => s }

/-- The scenario checkout payload of the spec: id chk_1, customer phone
+919876543210, completed_at null. -/
def chkPayload : ShopifyCheckout :=
  { id := "chk_1"
    customer := some { first_name := some "Asha", last_name := none, phone := some "+919876543210" }
    shipping_address := none
    billing_address := none
    completed_at := none
    total_price := none }

/-- A delivery of chkPayload with a correctly signed body and a provider that
would answer with message id wamid.1 and status accepted. -/
def chkDelivery : Delivery :=
  { hmacHeader := some (sampleEnv.hmacFn sampleEnv.secret "body1")
    rawBody := "body1"
    payload := chkPayload
    sendResult := .ok (some "wamid.1") (some "accepted") }

/-- A prior log entry for the same phone under another event id, written long
before the sample clock (timestamp 0, more than 24h earlier). -/
def oldEntry : LogEntry :=
  { fullName := some "Asha"
    phone := "+919876543210"
    messageId := none
    checkoutId := "old_evt"
    status := some "failed"
    timestamp := some 0
    error := some "timeout" }

/-- A prior log entry for the same phone whose timestamp field is absent, as
the success-path write of the code itself produces. -/
def noTimestampEntry : LogEntry :=
  { fullName := some "Asha"
    phone := "+919876543210"
    messageId := some "wamid.0"
    checkoutId := "old_evt"
    status := some "accepted"
    timestamp := none
    error := none }

/-- An order payload with the same customer and phone under event id ord_1. -/
def ordPayload : ShopifyCheckout :=
  { id := "ord_1"
    customer := some { first_name := some "Asha", last_name := none, phone := some "+919876543210" }
    shipping_address := none
    billing_address := none
    completed_at := none
    total_price := some "499.00" }

/-- A correctly signed delivery of ordPayload. -/
def ordDelivery : Delivery :=
  { hmacHeader := some (sampleEnv.hmacFn sampleEnv.secret "body2")
    rawBody := "body2"
    payload := ordPayload
    sendResult := .ok (some "wamid.2") (some "accepted") }

/-- A Sent entry for the same phone under another event id, written one hour
before the sample clock, inside the 24h cooldown window. -/
def recentSentEntry : LogEntry :=
  { fullName := some "Asha"
    phone := "+919876543210"
    messageId := some "wamid.9"
    checkoutId := "old_evt"
    status := some "sent"
    timestamp := some (200000000 - 3600000)
    error := none }

/-- An order payload whose completed flag is set. -/
def completedPayload : ShopifyCheckout :=
  { id := "ord_2"
    customer := some { first_name := some "Asha", last_name := none, phone := some "+919876543210" }
    shipping_address := none
    billing_address := none
    completed_at := some "2025-05-05T10:00:00Z"
    total_price := some "150.00" }

/-- A correctly signed delivery of completedPayload. -/
def completedDelivery : Delivery :=
  { hmacHeader := some (sampleEnv.hmacFn sampleEnv.secret "body3")
    rawBody := "body3"
    payload := completedPayload
    sendResult := .ok (some "wamid.3") (some "accepted") }

/-- A payload whose customer phone is present but the empty string while the
shipping address carries a valid phone. -/
def emptyPhonePayload : ShopifyCheckout :=
  { id := "chk_9"
    customer := some { first_name := some "Asha", last_name := none, phone := some "" }
    shipping_address := some { first_name := none, last_name := none, phone := some "+919876543210" }
    billing_address := none
    completed_at := none
    total_price := none }

/-- A correctly signed delivery of emptyPhonePayload. -/
def emptyPhoneDelivery : Delivery :=
  { hmacHeader := some (sampleEnv.hmacFn sampleEnv.secret "body4")
    rawBody := "body4"
    payload := emptyPhonePayload
    sendResult := .ok (some "wamid.4") (some "accepted") }

/-- A payload with no customer first name but a shipping name, making the
message body name and the logged full name differ. -/
def nameDiffPayload : ShopifyCheckout :=
  { id := "chk_7"
    customer := some { first_name := none, last_name := none, phone := some "+919876543210" }
    shipping_address := some { first_name := some "Priya", last_name := some "Rao", phone := none }
    billing_address := none
    completed_at := none
    total_price := none }

/-- Claim C3: on a valid-signature checkout-update delivery with a not
completed flag, a valid phone and an empty Notification Log, the claimed
behavior is a dispatch and exactly one Sent entry; the code instead faults,
with the empty cooldown query result, at the unconditional
docs[0].data().timestamp.toDate() read, so no send happens and no entry is
written. -/
theorem C3_checkout_empty_log_faults :
    (checkoutsUpdateHandler sampleEnv chkDelivery []).outcome =
        Outcome.cooldownFaultEmpty ∧
      (checkoutsUpdateHandler sampleEnv chkDelivery []).sends = [] ∧
      (checkoutsUpdateHandler sampleEnv chkDelivery []).log = [] := by
  decide

/-- Claim C5: when the cooldown query returns an entry whose timestamp field
is absent, the claimed behavior is to treat it as no prior entry and let the
dispatch proceed; the code instead faults calling toDate() on the undefined
timestamp, so no send happens and no entry is written. -/
theorem C5_missing_timestamp_faults :
    (checkoutsUpdateHandler sampleEnv chkDelivery [noTimestampEntry]).outcome =
        Outcome.cooldownFaultNoTimestamp ∧
      (checkoutsUpdateHandler sampleEnv chkDelivery [noTimestampEntry]).sends = [] ∧
      (checkoutsUpdateHandler sampleEnv chkDelivery [noTimestampEntry]).log =
        [noTimestampEntry] := by
  decide

/-! General lemmas about the handlers, shared by the claim theorems. -/

/-- Any checkout-update delivery either leaves the log unchanged or appends
exactly one entry, recorded under the event id of its payload. -/
theorem checkoutsUpdateHandler_log_cases (env : Env) (d : Delivery)
    (log : List LogEntry) :
    (checkoutsUpdateHandler env d log).log = log ∨
      ∃ e, (checkoutsUpdateHandler env d log).log = log ++ [e] ∧
        e.checkoutId = d.payload.id := by
  unfold checkoutsUpdateHandler
  dsimp only
  repeat' split
  all_goals first
    | exact Or.inl rfl
    | exact Or.inr ⟨_, rfl, rfl⟩

/-- When an entry recorded under the event id of the payload already exists,
the checkout-update handler neither sends nor writes. -/
theorem checkoutsUpdateHandler_dedup_blocks (env : Env) (d : Delivery)
    (log : List LogEntry)
    (h : (entriesByEventId log d.payload.id).isEmpty = false) :
    (checkoutsUpdateHandler env d log).log = log ∧
      (checkoutsUpdateHandler env d log).sends = [] := by
  unfold checkoutsUpdateHandler
  dsimp only
  repeat' split
  all_goals simp_all

/-- The HTTP status written by the checkout-update handler is a function of
the signature header, the secret and the raw body alone. -/
theorem checkoutsUpdateHandler_response_eq (env : Env) (d : Delivery)
    (log : List LogEntry) :
    (checkoutsUpdateHandler env d log).response =
      if jsFalsyOptStr d.hmacHeader || env.secret == "" then 403
      else if env.hmacFn env.secret d.rawBody != d.hmacHeader.getD "" then 403
      else 200 := by
  unfold checkoutsUpdateHandler
  dsimp only
  repeat' split
  all_goals simp_all

/-- The HTTP status written by the orders-create handler is a function of the
signature header, the secret and the raw body alone. -/
theorem ordersCreateHandler_response_eq (env : Env) (d : Delivery)
    (log : List LogEntry) :
    (ordersCreateHandler env d log).response =
      if jsFalsyOptStr d.hmacHeader || env.secret == "" then 403
      else if env.hmacFn env.secret d.rawBody != d.hmacHeader.getD "" then 403
      else 200 := by
  unfold ordersCreateHandler
  dsimp only
  repeat' split
  all_goals simp_all

/-- Appending one entry raises the per-event-id count by one exactly when the
appended entry carries that id. -/
theorem countByEventId_append (log : List LogEntry) (e : LogEntry) (id : String) :
    countByEventId (log ++ [e]) id =
      countByEventId log id + if e.checkoutId == id then 1 else 0 := by
  simp only [countByEventId, entriesByEventId, List.filter_append,
    List.length_append, List.filter]
  cases hbe : e.checkoutId == id <;> simp [hbe]

/-- A nonzero per-event-id count means the dedup query result is nonempty. -/
theorem entriesByEventId_not_empty (log : List LogEntry) (id : String)
    (h : countByEventId log id ≠ 0) :
    (entriesByEventId log id).isEmpty = false := by
  cases hE : entriesByEventId log id with
  | nil => exact absurd (by simp [countByEventId, hE]) h
  | cons a l => rfl

/-- Claim C1: the claim holds on the checkout-update endpoint, whose dedup
query blocks a second delivery of an event id that already has an entry, so
two sequential deliveries leave at most one log entry for the id; it fails on
the order-create endpoint, which has no dedup query (see the counterexample,
where two sequential order deliveries leave two entries). -/
theorem C1_checkout_two_deliveries_at_most_one_entry (env : Env) (d : Delivery)
    (log : List LogEntry) (h : countByEventId log d.payload.id = 0) :
    countByEventId
      (checkoutsUpdateHandler env d (checkoutsUpdateHandler env d log).log).log
      d.payload.id ≤ 1 := by
  rcases checkoutsUpdateHandler_log_cases env d log with h1 | ⟨e, h1, he⟩
  · rw [h1]
    rcases checkoutsUpdateHandler_log_cases env d log with h2 | ⟨e2, h2, he2⟩
    · rw [h2, h]
      decide
    · rw [h2, countByEventId_append, h, he2]
      simp
  · have hc1 : countByEventId (checkoutsUpdateHandler env d log).log
        d.payload.id = 1 := by
      rw [h1, countByEventId_append, h, he]
      simp
    have hne := entriesByEventId_not_empty
      (checkoutsUpdateHandler env d log).log d.payload.id (by rw [hc1]; decide)
    rw [(checkoutsUpdateHandler_dedup_blocks env d _ hne).1, hc1]

/-- Witness for C1: a concrete checkout event delivered twice from a log with
no entry for its id ends with at most one entry for that id. -/
theorem C1_witness :
    countByEventId
      (checkoutsUpdateHandler sampleEnv chkDelivery
        (checkoutsUpdateHandler sampleEnv chkDelivery [oldEntry]).log).log
      "chk_1" ≤ 1 :=
  C1_checkout_two_deliveries_at_most_one_entry sampleEnv chkDelivery [oldEntry]
    (by decide)

/-- Counterexample for C1: the order-create endpoint has no dedup query, so
the same correctly signed order event delivered twice and processed
sequentially leaves two log entries for its event id, not at most one. -/
theorem C1_counterexample_orders_two_entries :
    countByEventId
      (ordersCreateHandler sampleEnv ordDelivery
        (ordersCreateHandler sampleEnv ordDelivery []).log).log "ord_1" = 2 := by
  decide

/-- Claim C2, amended: the order-create handler never consults the
Notification Log at all: the log it produces is the prior log plus whatever
it writes from an empty log, and its sends, response and outcome are the
same for every prior log state, so no recipient-cooldown check blocks order
events. -/
theorem C2_orders_handler_ignores_log (env : Env) (d : Delivery)
    (log : List LogEntry) :
    (ordersCreateHandler env d log).log =
        log ++ (ordersCreateHandler env d []).log ∧
      (ordersCreateHandler env d log).sends = (ordersCreateHandler env d []).sends ∧
      (ordersCreateHandler env d log).response =
        (ordersCreateHandler env d []).response ∧
      (ordersCreateHandler env d log).outcome =
        (ordersCreateHandler env d []).outcome := by
  unfold ordersCreateHandler
  dsimp only
  repeat' split
  all_goals simp_all

/-- Counterexample for C2: a correctly signed order event with a valid phone
arriving one hour after a Sent entry for the same phone under a different
event id still makes one outbound call and writes one log entry, instead of
the claimed zero calls and zero entries. -/
theorem C2_counterexample_order_inside_cooldown :
    recentSentEntry.status = some "sent" ∧
      recentSentEntry.phone = "+919876543210" ∧
      recentSentEntry.checkoutId ≠ ordPayload.id ∧
      sampleEnv.now - recentSentEntry.timestamp.getD 0 < 24 * 60 * 60 * 1000 ∧
      (ordersCreateHandler sampleEnv ordDelivery [recentSentEntry]).sends.length
        = 1 ∧
      (ordersCreateHandler sampleEnv ordDelivery [recentSentEntry]).log.length
        = 2 := by
  decide

/-- A delivery whose resolved raw phone is absent or the empty string neither
sends nor writes, on both endpoints. -/
theorem handlers_noPhone_no_effect (env : Env) (d : Delivery)
    (log : List LogEntry)
    (h : jsFalsyOptStr (rawRecipientPhone d.payload) = true) :
    (checkoutsUpdateHandler env d log).sends = [] ∧
      (checkoutsUpdateHandler env d log).log = log ∧
      (ordersCreateHandler env d log).sends = [] ∧
      (ordersCreateHandler env d log).log = log := by
  unfold checkoutsUpdateHandler ordersCreateHandler
  dsimp only
  repeat' split
  all_goals simp_all

/-- Claim C4, amended: the dispatch of the checkout-update handler writes
exactly one entry per attempt, but only the failure entry carries a
timestamp: on success the entry holds the provider message id and the
provider-reported status and no timestamp at all, and on failure the entry
holds status failed, the error detail and the write-time timestamp. -/
theorem C4_dispatch_entry_shape (env : Env) (d : Delivery) (log : List LogEntry)
    (h : (checkoutsUpdateHandler env d log).outcome = Outcome.sent ∨
      (checkoutsUpdateHandler env d log).outcome = Outcome.sendFailed) :
    ∃ e, (checkoutsUpdateHandler env d log).log = log ++ [e] ∧
      ((checkoutsUpdateHandler env d log).outcome = Outcome.sent →
        e.messageId = resultMessageId d.sendResult ∧
        e.status = resultMessageStatus d.sendResult ∧
        e.timestamp = none ∧ e.error = none) ∧
      ((checkoutsUpdateHandler env d log).outcome = Outcome.sendFailed →
        e.status = some "failed" ∧ e.timestamp = some env.now ∧
        e.error = resultErrorMsg d.sendResult ∧ e.messageId = none) := by
  revert h
  unfold checkoutsUpdateHandler
  dsimp only
  repeat' split
  all_goals intro h
  all_goals first
    | exact ⟨_, rfl, fun _ => ⟨rfl, rfl, rfl, rfl⟩,
        fun hx => Outcome.noConfusion hx⟩
    | simp_all
  all_goals exact ⟨rfl, rfl, rfl, rfl⟩

/-- Witness for C4: a concrete successful dispatch writes exactly one entry,
with the provider message id and no timestamp. -/
theorem C4_witness :
    ∃ e, (checkoutsUpdateHandler sampleEnv chkDelivery [oldEntry]).log =
        [oldEntry] ++ [e] ∧
      ((checkoutsUpdateHandler sampleEnv chkDelivery [oldEntry]).outcome =
          Outcome.sent →
        e.messageId = resultMessageId chkDelivery.sendResult ∧
        e.status = resultMessageStatus chkDelivery.sendResult ∧
        e.timestamp = none ∧ e.error = none) ∧
      ((checkoutsUpdateHandler sampleEnv chkDelivery [oldEntry]).outcome =
          Outcome.sendFailed →
        e.status = some "failed" ∧ e.timestamp = some sampleEnv.now ∧
        e.error = resultErrorMsg chkDelivery.sendResult ∧ e.messageId = none) :=
  C4_dispatch_entry_shape sampleEnv chkDelivery [oldEntry] (Or.inl (by decide))

/-- Counterexample for C4: a successful dispatch writes an entry whose
timestamp field is absent, not an entry carrying a timestamp as claimed. -/
theorem C4_counterexample_sent_entry_has_no_timestamp :
    (checkoutsUpdateHandler sampleEnv chkDelivery [oldEntry]).outcome =
        Outcome.sent ∧
      (checkoutsUpdateHandler sampleEnv chkDelivery [oldEntry]).log =
        [oldEntry,
          sentLogEntry "Asha" "+919876543210" "chk_1" chkDelivery.sendResult] ∧
      (sentLogEntry "Asha" "+919876543210" "chk_1"
        chkDelivery.sendResult).timestamp = none := by
  decide

/-- Claim C6, amended: on the checkout-update endpoint a truthy completed_at
stops processing before any send or write, whatever the log state and the
signature; the order-create endpoint never reads completed_at, and the
counterexample shows it dispatching a completed event. -/
theorem C6_checkout_completed_no_effect (env : Env) (d : Delivery)
    (log : List LogEntry) (h : jsFalsyOptStr d.payload.completed_at = false) :
    (checkoutsUpdateHandler env d log).sends = [] ∧
      (checkoutsUpdateHandler env d log).log = log := by
  unfold checkoutsUpdateHandler
  dsimp only
  repeat' split
  all_goals simp_all

/-- Witness for C6: a concrete completed checkout event leaves the log alone
and sends nothing on the checkout-update endpoint. -/
theorem C6_witness :
    (checkoutsUpdateHandler sampleEnv completedDelivery [recentSentEntry]).sends
        = [] ∧
      (checkoutsUpdateHandler sampleEnv completedDelivery
        [recentSentEntry]).log = [recentSentEntry] :=
  C6_checkout_completed_no_effect sampleEnv completedDelivery [recentSentEntry]
    (by decide)

/-- Counterexample for C6: a correctly signed order-create event whose
completed flag is set is still dispatched and logged, because the
order-create handler has no completed_at guard. -/
theorem C6_counterexample_completed_order_dispatches :
    jsFalsyOptStr completedPayload.completed_at = false ∧
      (ordersCreateHandler sampleEnv completedDelivery []).sends.length = 1 ∧
      (ordersCreateHandler sampleEnv completedDelivery []).log.length = 1 ∧
      (ordersCreateHandler sampleEnv completedDelivery []).outcome =
        Outcome.sent := by
  decide

/-- Claim C7: both endpoints answer 403 when the signature header is missing
or empty or the secret is empty, and 403 when the computed digest differs
from the presented signature; once verification passes they answer 200, and
the response is a function of the signature inputs alone, unaffected by the
payload, the log state or the send outcome. -/
theorem C7_response_codes (env : Env) (d : Delivery) (log : List LogEntry) :
    ((d.hmacHeader = none ∨ d.hmacHeader = some "" ∨ env.secret = "") →
        (checkoutsUpdateHandler env d log).response = 403 ∧
          (ordersCreateHandler env d log).response = 403) ∧
      (∀ s, d.hmacHeader = some s → s ≠ "" → env.secret ≠ "" →
        env.hmacFn env.secret d.rawBody ≠ s →
        (checkoutsUpdateHandler env d log).response = 403 ∧
          (ordersCreateHandler env d log).response = 403) ∧
      (∀ s, d.hmacHeader = some s → s ≠ "" → env.secret ≠ "" →
        env.hmacFn env.secret d.rawBody = s →
        (checkoutsUpdateHandler env d log).response = 200 ∧
          (ordersCreateHandler env d log).response = 200) ∧
      (∀ d2 log2, d2.hmacHeader = d.hmacHeader → d2.rawBody = d.rawBody →
        (checkoutsUpdateHandler env d2 log2).response =
            (checkoutsUpdateHandler env d log).response ∧
          (ordersCreateHandler env d2 log2).response =
            (ordersCreateHandler env d log).response) := by
  refine ⟨?_, ?_, ?_, ?_⟩
  · intro h
    rw [checkoutsUpdateHandler_response_eq, ordersCreateHandler_response_eq]
    rcases h with h | h | h <;> simp [jsFalsyOptStr, h]
  · intro s hs hne hsecret hdiff
    rw [checkoutsUpdateHandler_response_eq, ordersCreateHandler_response_eq]
    simp [jsFalsyOptStr, hs, hne, hsecret, hdiff]
  · intro s hs hne hsecret heq
    rw [checkoutsUpdateHandler_response_eq, ordersCreateHandler_response_eq]
    simp [jsFalsyOptStr, hs, hne, hsecret, heq]
  · intro d2 log2 hh hb
    rw [checkoutsUpdateHandler_response_eq, ordersCreateHandler_response_eq,
      checkoutsUpdateHandler_response_eq, ordersCreateHandler_response_eq,
      hh, hb]
    exact ⟨rfl, rfl⟩

/-- Witness for C7: with the concrete environment, a correctly signed
delivery gets 200 on both endpoints. -/
theorem C7_witness :
    (checkoutsUpdateHandler sampleEnv chkDelivery []).response = 200 ∧
      (ordersCreateHandler sampleEnv chkDelivery []).response = 200 :=
  (C7_response_codes sampleEnv chkDelivery []).2.2.1 "mac:shs:body1" rfl
    (by decide) (by decide) rfl

/-- Claim C8, amended: the raw recipient phone is the first present (not
null or undefined) of the customer, shipping and billing phones: an empty
string customer phone is selected rather than skipped, and whenever the
resolved value is absent or empty both handlers stop with no send and no
log write. -/
theorem C8_phone_resolution (c : ShopifyCheckout) (env : Env) (d : Delivery)
    (log : List LogEntry) :
    ((∀ p, c.customer.bind Customer.phone = some p →
        rawRecipientPhone c = some p) ∧
      (c.customer.bind Customer.phone = none →
        ∀ p, c.shipping_address.bind Address.phone = some p →
          rawRecipientPhone c = some p) ∧
      (c.customer.bind Customer.phone = none →
        c.shipping_address.bind Address.phone = none →
          rawRecipientPhone c = c.billing_address.bind Address.phone)) ∧
      (jsFalsyOptStr (rawRecipientPhone d.payload) = true →
        (checkoutsUpdateHandler env d log).sends = [] ∧
          (checkoutsUpdateHandler env d log).log = log ∧
          (ordersCreateHandler env d log).sends = [] ∧
          (ordersCreateHandler env d log).log = log) := by
  refine ⟨⟨?_, ?_, ?_⟩, handlers_noPhone_no_effect env d log⟩
  · intro p hp
    simp [rawRecipientPhone, jsNullish, hp]
  · intro h1 p hp
    simp [rawRecipientPhone, jsNullish, h1, hp]
  · intro h1 h2
    simp [rawRecipientPhone, jsNullish, h1, h2]

/-- Witness for C8: the concrete scenario payload resolves its customer phone,
and the payload with an empty customer phone and a valid shipping phone
leaves the log untouched. -/
theorem C8_witness :
    rawRecipientPhone chkPayload = some "+919876543210" ∧
      (checkoutsUpdateHandler sampleEnv emptyPhoneDelivery [oldEntry]).log =
        [oldEntry] :=
  ⟨(C8_phone_resolution chkPayload sampleEnv chkDelivery []).1.1 _ rfl,
    ((C8_phone_resolution emptyPhonePayload sampleEnv emptyPhoneDelivery
      [oldEntry]).2 (by decide)).2.1⟩

/-- Counterexample for C8: with an empty-string customer phone and a valid
shipping phone the claim says the shipping phone is chosen and the
notification proceeds; the code instead resolves the empty string, treats it
as no phone, and stops without sending or writing. -/
theorem C8_counterexample_empty_string_not_skipped :
    rawRecipientPhone emptyPhonePayload = some "" ∧
      rawRecipientPhone emptyPhonePayload ≠ some "+919876543210" ∧
      (checkoutsUpdateHandler sampleEnv emptyPhoneDelivery [oldEntry]).outcome =
        Outcome.noPhone ∧
      (checkoutsUpdateHandler sampleEnv emptyPhoneDelivery [oldEntry]).sends =
        [] := by
  decide

/-- Claim C10: every outbound message built by either handler carries, as its
first body text parameter, the customer first name with fallback "there",
independent of shipping and billing names; every log entry either predates
the delivery or carries the full display name of getFullName in its fullName
field; and on a concrete payload without a customer first name the two
differ: the message says "there" while the log records the shipping name. -/
theorem C10_message_name_vs_log_name (env : Env) (d : Delivery)
    (log : List LogEntry) :
    ((∀ m ∈ (checkoutsUpdateHandler env d log).sends,
        m.bodyParams.head? =
          some (some ((d.payload.customer.bind Customer.first_name).getD
            "there"))) ∧
      (∀ m ∈ (ordersCreateHandler env d log).sends,
        m.bodyParams.head? =
          some (some ((d.payload.customer.bind Customer.first_name).getD
            "there"))) ∧
      (∀ e ∈ (checkoutsUpdateHandler env d log).log,
        e ∈ log ∨ e.fullName = some (getFullName d.payload)) ∧
      (∀ e ∈ (ordersCreateHandler env d log).log,
        e ∈ log ∨ e.fullName = some (getFullName d.payload))) ∧
      ((nameDiffPayload.customer.bind Customer.first_name).getD "there" =
          "there" ∧
        getFullName nameDiffPayload = "Priya Rao") := by
  refine ⟨⟨?_, ?_, ?_, ?_⟩, by decide, by decide⟩
  · unfold checkoutsUpdateHandler
    dsimp only
    repeat' split
    all_goals intro m hm
    all_goals simp_all [checkoutMessageData]
  · unfold ordersCreateHandler
    dsimp only
    repeat' split
    all_goals intro m hm
    all_goals simp_all [orderMessageData]
  · unfold checkoutsUpdateHandler
    dsimp only
    repeat' split
    all_goals intro e he
    all_goals first
      | exact Or.inl he
      | exact (List.mem_append.mp he).elim Or.inl
          (fun h => Or.inr (by
            simp only [List.mem_singleton] at h
            subst h
            rfl))
  · unfold ordersCreateHandler
    dsimp only
    repeat' split
    all_goals intro e he
    all_goals first
      | exact Or.inl he
      | exact (List.mem_append.mp he).elim Or.inl
          (fun h => Or.inr (by
            simp only [List.mem_singleton] at h
            subst h
            rfl))

/-- Witness for C10: in a concrete successful checkout dispatch the message
built for the provider opens its body with the customer first name. -/
theorem C10_witness :
    (checkoutMessageData sampleEnv "+919876543210" "Asha").bodyParams.head? =
      some (some "Asha") :=
  (C10_message_name_vs_log_name sampleEnv chkDelivery [oldEntry]).1.1
    (checkoutMessageData sampleEnv "+919876543210" "Asha") (by decide)

end WtspHooks
